import Mathlib

/-!
Shallow embedding of `src-tauri/src/commands/link_checker.rs` (PicNexus).

The file models the link-validation, error-classification, cleanup and
download pipeline of the repository.  Pure Rust functions become Lean
functions; the effectful commands (`check_image_link`,
`cleanup_old_temp_files`, `download_image_from_url`) are modelled by
making every external interaction an explicit argument (the outcome of
the HTTP send, the directory listing, the per-file deletion success,
the filesystem-write outcome) and by returning a record holding the
function's result together with the side effects it performed (request
issued, body read, file written, files deleted).  Machine integers
(`u16` status codes, `u64`/`usize` sizes and second counts) are
modelled as `Nat`; no arithmetic in this code can overflow at the
values it handles.  Durations compared by the code via
`Duration::as_secs` are modelled in whole seconds.
-/

namespace LinkChecker

/-- `MAX_DOWNLOAD_SIZE`: maximum allowed download size, 50 MiB (line 8). -/
def MAX_DOWNLOAD_SIZE : Nat := 50 * 1024 * 1024

/-- `TEMP_FILE_PREFIX`: fixed temp-file name prefix (line 11). -/
def TEMP_FILE_PREFIX : String := "weibo_reupload_"

/-- `TEMP_FILE_MAX_AGE_SECS`: temp-file retention, 3600 s (line 14). -/
def TEMP_FILE_MAX_AGE_SECS : Nat := 3600

/-- Model of `reqwest::Error`: the only observations the code makes are
`is_timeout()`, `is_connect()` and `to_string()`. -/
structure ReqError where
  timeout : Bool
  connect : Bool
  msg : String
  deriving Repr, DecidableEq

/-- `reqwest::Error::is_timeout`. -/
def ReqError.is_timeout (e : ReqError) : Bool := e.timeout

/-- `reqwest::Error::is_connect`. -/
def ReqError.is_connect (e : ReqError) : Bool := e.connect

/-- `reqwest::Error::to_string`. -/
def ReqError.toMsg (e : ReqError) : String := e.msg

/-- The error-based tail of `classify_error` (lines 49-64): reached when
`status_code` is absent or matches none of the three status ranges. -/
def classify_error_net (error : Option ReqError) : String × Option String :=
  match error with
  | some err =>
    if err.is_timeout then
      ("timeout", some "请求超时，可能是网络延迟或图床响应慢")
    else if err.is_connect then
      ("network", some "网络连接失败，请检查网络或防火墙设置")
    else
      ("network", some "未知错误")
  | none => ("network", some "未知错误")

/-- `classify_error` (lines 30-65): classify an HTTP status or transport
failure into an error type and a suggestion.  A present status code that
matches none of the three ranges falls through to the error branch. -/
def classify_error (status_code : Option Nat) (error : Option ReqError) :
    String × Option String :=
  match status_code with
  | some code =>
    if 400 ≤ code ∧ code < 500 then
      ("http_4xx", some "图片已被删除或无权访问，建议从其他有效图床重新上传")
    else if 500 ≤ code then
      ("http_5xx", some "图床服务器暂时不可用，建议稍后重试")
    else if 200 ≤ code ∧ code < 300 then
      ("success", none)
    else
      classify_error_net error
  | none => classify_error_net error

/-- Substring containment on the underlying character lists: models
Rust's `str::contains` with a string pattern. -/
def str_contains_aux (pat : List Char) : List Char → Bool
  | [] => pat.isEmpty
  | c :: rest => pat.isPrefixOf (c :: rest) || str_contains_aux pat rest

/-- `str::contains` for string patterns. -/
def str_contains (s pat : String) : Bool :=
  str_contains_aux pat.data s.data

/-- `str::starts_with` for string patterns, on the underlying character
lists. -/
def starts_with (s pre : String) : Bool :=
  pre.data.isPrefixOf s.data

/-- `is_baidu_proxy_link` (lines 68-70): fixed substring check. -/
def is_baidu_proxy_link (link : String) : Bool :=
  str_contains link "image.baidu.com"

/-- Model of `link.trim().is_empty()` (line 85): trimming removes
leading and trailing whitespace, so the trimmed string is empty exactly
when every character of the link is whitespace. -/
def trim_is_empty (link : String) : Bool :=
  link.data.all fun c => c.isWhitespace

/-- `StatusCode::is_success`: the 2xx range. -/
def status_is_success (code : Nat) : Bool := decide (200 ≤ code ∧ code < 300)

/-- The shape of the probe request issued by `check_image_link`
(lines 101-115): method, url, optional Range header, timeout. -/
structure ProbeRequest where
  method : String
  url : String
  range_header : Option String
  timeout_secs : Nat
  deriving Repr, DecidableEq

/-- The request-shape decision of lines 101-115: a Baidu proxy link gets
`GET` with `Range: bytes=0-0`, any other link gets `HEAD`; both carry the
10-second timeout.  Pure in the link string. -/
def probe_request (link : String) : ProbeRequest :=
  if is_baidu_proxy_link link then
    { method := "GET", url := link, range_header := some "bytes=0-0",
      timeout_secs := 10 }
  else
    { method := "HEAD", url := link, range_header := none,
      timeout_secs := 10 }

/-- `CheckLinkResult` (lines 16-27). -/
structure CheckLinkResult where
  link : String
  is_valid : Bool
  status_code : Option Nat
  error : Option String
  error_type : String
  suggestion : Option String
  response_time : Option Nat
  deriving Repr, DecidableEq

/-- Outcome of `send().await` on the probe: a response with its status
code, or a transport error; either way with the elapsed milliseconds the
timer would measure. -/
inductive ProbeOutcome where
  | ok (status_code : Nat) (elapsed_ms : Nat)
  | err (e : ReqError) (elapsed_ms : Nat)
  deriving Repr, DecidableEq

/-- `check_image_link` (lines 77-173).  The HTTP interaction is an
explicit argument `outcome`; the second component of the result records
the request issued, `none` when the empty-link short circuit fired and
no request was sent. -/
def check_image_link (link : String) (outcome : ProbeOutcome) :
    CheckLinkResult × Option ProbeRequest :=
  if trim_is_empty link then
    ({ link := link, is_valid := false, status_code := none,
       error := some "链接为空", error_type := "network",
       suggestion := some "链接为空", response_time := none }, none)
  else
    match outcome with
    | .ok code elapsed =>
      let is_valid := status_is_success code
      let cls := classify_error (some code) none
      ({ link := link, is_valid := is_valid, status_code := some code,
         error := if !is_valid then some ("HTTP " ++ toString code) else none,
         error_type := cls.1, suggestion := cls.2,
         response_time := some elapsed }, some (probe_request link))
    | .err e elapsed =>
      let error_msg :=
        if e.is_timeout then "请求超时"
        else if e.is_connect then "连接失败"
        else e.toMsg
      let cls := classify_error none (some e)
      ({ link := link, is_valid := false, status_code := none,
         error := some error_msg, error_type := cls.1, suggestion := cls.2,
         response_time := some elapsed }, some (probe_request link))

/-- One readable entry of the temp directory (`entries.flatten()` in the
source drops unreadable entries, so the model's list holds the readable
ones).  `name` is `path.file_name().and_then(to_str)` — `none` when the
name is not representable; `metadata_ok` is whether `entry.metadata()`
succeeds; `modified` is the modification time in whole seconds since the
epoch when `metadata.modified()` succeeds; `remove_ok` is whether
`fs::remove_file` on this entry would succeed. -/
structure TempEntry where
  name : Option String
  metadata_ok : Bool
  modified : Option Nat
  remove_ok : Bool
  deriving Repr, DecidableEq

/-- What the cleanup loop body (lines 192-217) does with one entry. -/
inductive EntryAction where
  | removed (n : String)
  | removeFailed (n : String)
  | skip
  deriving Repr, DecidableEq

/-- The loop body of `cleanup_old_temp_files` for one entry: prefix
check, metadata and modified-time reads (a failed read skips the entry),
`now.duration_since(modified)` (an `Err`, i.e. a modification time in
the future, skips the entry), strict age comparison in whole seconds,
then the deletion attempt. -/
def entry_action (now : Nat) (e : TempEntry) : EntryAction :=
  match e.name with
  | none => .skip
  | some n =>
    if !(starts_with n TEMP_FILE_PREFIX) then .skip
    else if e.metadata_ok then
      match e.modified with
      | some m =>
        if m ≤ now then
          if now - m > TEMP_FILE_MAX_AGE_SECS then
            if e.remove_ok then .removed n else .removeFailed n
          else .skip
        else .skip
      | none => .skip
    else .skip

/-- Accumulated effect of the cleanup scan: names deleted (in scan
order), the `cleaned_count` counter, and the per-file failure logs. -/
structure CleanupState where
  deleted : List String
  cleaned_count : Nat
  logs : List String
  deriving Repr, DecidableEq

/-- The `for entry in entries.flatten()` loop of lines 192-217. -/
def cleanup_scan (now : Nat) : List TempEntry → CleanupState
  | [] => { deleted := [], cleaned_count := 0, logs := [] }
  | e :: rest =>
    let tail := cleanup_scan now rest
    match entry_action now e with
    | .removed n =>
      { deleted := n :: tail.deleted,
        cleaned_count := tail.cleaned_count + 1, logs := tail.logs }
    | .removeFailed n =>
      { deleted := tail.deleted, cleaned_count := tail.cleaned_count,
        logs := ("删除失败 " ++ n) :: tail.logs }
    | .skip => tail

/-- Full outcome of `cleanup_old_temp_files`: what it deleted, the
counter, the log lines, and the Rust function's return value — which is
the unit value `()`, since the function's signature is
`fn cleanup_old_temp_files()`. -/
structure CleanupResult where
  deleted : List String
  cleaned_count : Nat
  logs : List String
  ret : Unit
  deriving Repr, DecidableEq

/-- `cleanup_old_temp_files` (lines 177-222).  `read_dir` is the outcome
of `fs::read_dir(temp_dir)`: `none` models the `Err` case (the function
logs and returns having touched nothing), `some entries` the readable
entries in scan order.  The final count log of lines 219-221 is emitted
only when the count is positive. -/
def cleanup_old_temp_files (read_dir : Option (List TempEntry)) (now : Nat) :
    CleanupResult :=
  match read_dir with
  | none =>
    { deleted := [], cleaned_count := 0,
      logs := ["无法读取临时目录"], ret := () }
  | some entries =>
    let s := cleanup_scan now entries
    { deleted := s.deleted, cleaned_count := s.cleaned_count,
      logs := s.logs ++
        (if s.cleaned_count > 0 then
          ["已清理 " ++ toString s.cleaned_count ++ " 个过期文件"]
        else []),
      ret := () }

/-- The Boolean characterisation of which entries the cleanup deletes:
representable name starting with the fixed prefix, readable metadata and
modification time, age strictly above the threshold in whole seconds,
and a successful `remove_file`. -/
def entry_removed (now : Nat) (e : TempEntry) : Bool :=
  (match e.name with
   | some n => starts_with n TEMP_FILE_PREFIX
   | none => false)
  && e.metadata_ok
  && (match e.modified with
      | some m => decide (m ≤ now) && decide (now - m > TEMP_FILE_MAX_AGE_SECS)
      | none => false)
  && e.remove_ok

/-- The observations the download path makes of a `reqwest::Response`:
its status, its declared `content_length()`, and the outcome of
`bytes()` — the body as a byte list, or a read error message. -/
structure DownloadResponse where
  status : Nat
  content_length : Option Nat
  body_result : Except String (List Nat)
  deriving Repr

/-- Full outcome of `download_image_from_url`: the cleanup pass it ran
first, whether it read the response body, the file it wrote (final path
and bytes, `none` when nothing was written), and the `Result` it
returns. -/
structure DownloadEffects where
  cleanup : CleanupResult
  body_read : Bool
  file_written : Option (String × List Nat)
  result : Except String String
  deriving Repr

/-- The size-limit error message of lines 262-265 and 278-281: sizes
reported in MiB by integer division. -/
def size_error_msg (bytes : Nat) : String :=
  "文件过大: " ++ toString (bytes / 1024 / 1024) ++ " MB (最大 " ++
    toString (MAX_DOWNLOAD_SIZE / 1024 / 1024) ++ " MB)"

/-- Outcome of the single `std::fs::write(&temp_path, &bytes)` call of
line 292.  `std::fs::write` is `File::create(path)` followed by
`write_all(contents)`: when `File::create` fails, no file appears at the
path; when `write_all` fails after `written` bytes (e.g. the disk fills
mid-write), the created, truncated file remains at the path holding the
prefix written so far — the primitive is not all-or-nothing. -/
inductive WriteOutcome where
  | ok
  | createFailed (e : String)
  | writeFailed (written : Nat) (e : String)
  deriving Repr, DecidableEq

/-- Lines 269-300 of `download_image_from_url`: read the body, check the
actual size, build the temp path and write the file.  `write_outcome`
is the behaviour of the `fs::write` call; `file_written` records what
is on disk at the final path afterwards — on a `write_all` failure that
is the partial (possibly empty) file `fs::write` created there, which
the code never removes. -/
def download_body_and_write (resp : DownloadResponse) (timestamp : Int)
    (temp_dir : String) (write_outcome : WriteOutcome)
    (cleanup : CleanupResult) : DownloadEffects :=
  match resp.body_result with
  | .error e =>
    { cleanup := cleanup, body_read := true, file_written := none,
      result := .error ("读取内容失败: " ++ e) }
  | .ok bytes =>
    if bytes.length > MAX_DOWNLOAD_SIZE then
      { cleanup := cleanup, body_read := true, file_written := none,
        result := .error (size_error_msg bytes.length) }
    else
      let temp_path :=
        temp_dir ++ "/" ++ TEMP_FILE_PREFIX ++ toString timestamp ++ ".jpg"
      match write_outcome with
      | .createFailed e =>
        { cleanup := cleanup, body_read := true, file_written := none,
          result := .error ("写入文件失败: " ++ e) }
      | .writeFailed written e =>
        { cleanup := cleanup, body_read := true,
          file_written := some (temp_path, bytes.take written),
          result := .error ("写入文件失败: " ++ e) }
      | .ok =>
        { cleanup := cleanup, body_read := true,
          file_written := some (temp_path, bytes), result := .ok temp_path }

/-- `download_image_from_url` (lines 232-301).  External interactions
are explicit arguments: `read_dir`/`now` feed the initial cleanup pass,
`send_result` is the outcome of the GET, `timestamp` is
`chrono::Local::now().timestamp()`, `temp_dir` the system temp
directory, `write_outcome` the behaviour of the final `fs::write`. -/
def download_image_from_url (read_dir : Option (List TempEntry)) (now : Nat)
    (send_result : Except ReqError DownloadResponse) (timestamp : Int)
    (temp_dir : String) (write_outcome : WriteOutcome) : DownloadEffects :=
  let cleanup := cleanup_old_temp_files read_dir now
  match send_result with
  | .error e =>
    { cleanup := cleanup, body_read := false, file_written := none,
      result := .error ("下载失败: " ++ e.toMsg) }
  | .ok resp =>
    if !(status_is_success resp.status) then
      { cleanup := cleanup, body_read := false, file_written := none,
        result := .error ("下载失败: HTTP " ++ toString resp.status) }
    else
      match resp.content_length with
      | some cl =>
        if cl > MAX_DOWNLOAD_SIZE then
          { cleanup := cleanup, body_read := false, file_written := none,
            result := .error (size_error_msg cl) }
        else
          download_body_and_write resp timestamp temp_dir write_outcome cleanup
      | none =>
        download_body_and_write resp timestamp temp_dir write_outcome cleanup

/-! ### Helper lemmas about the classifier -/

theorem classify_error_net_fst_ne_success (err : Option ReqError) :
    (classify_error_net err).1 ≠ "success" := by
  rcases err with _ | e <;> simp only [classify_error_net]
  · decide
  · split_ifs <;> decide

theorem classify_error_some_eq (code : Nat) (err : Option ReqError) :
    classify_error (some code) err =
      if 400 ≤ code ∧ code < 500 then
        ("http_4xx", some "图片已被删除或无权访问，建议从其他有效图床重新上传")
      else if 500 ≤ code then
        ("http_5xx", some "图床服务器暂时不可用，建议稍后重试")
      else if 200 ≤ code ∧ code < 300 then
        ("success", none)
      else
        classify_error_net err := rfl

theorem classify_error_none_eq (err : Option ReqError) :
    classify_error none err = classify_error_net err := rfl

theorem classify_error_some_fst_success_iff (code : Nat)
    (err : Option ReqError) :
    (classify_error (some code) err).1 = "success" ↔
      (200 ≤ code ∧ code < 300) := by
  rw [classify_error_some_eq]
  split_ifs with h1 h2 h3
  · exact iff_of_false (by decide) (by omega)
  · exact iff_of_false (by decide) (by omega)
  · exact iff_of_true rfl h3
  · exact iff_of_false (classify_error_net_fst_ne_success err) h3

theorem classify_error_unmatched (code : Nat)
    (h : code < 200 ∨ (300 ≤ code ∧ code < 400)) :
    classify_error (some code) none = ("network", some "未知错误") := by
  rw [classify_error_some_eq]
  split_ifs <;> first | omega | rfl

/-! ### Claims about the classifier -/

/-- C2: for every present status code, `classify_error` maps a code in
[200,300) to `("success", none)`, a code in [400,500) to `http_4xx` with
the re-upload suggestion, and a code ≥ 500 to `http_5xx` with the
retry-later suggestion, whatever the error argument. -/
theorem classify_error_status_ranges (code : Nat) (err : Option ReqError) :
    (200 ≤ code → code < 300 →
      classify_error (some code) err = ("success", none)) ∧
    (400 ≤ code → code < 500 →
      classify_error (some code) err =
        ("http_4xx", some "图片已被删除或无权访问，建议从其他有效图床重新上传")) ∧
    (500 ≤ code →
      classify_error (some code) err =
        ("http_5xx", some "图床服务器暂时不可用，建议稍后重试")) := by
  refine ⟨fun h1 h2 => ?_, fun h1 h2 => ?_, fun h1 => ?_⟩ <;>
    · rw [classify_error_some_eq]
      split_ifs <;> first | rfl | omega

theorem classify_error_status_ranges_witness :
    classify_error (some 204) none = ("success", none) ∧
    classify_error (some 404) none =
      ("http_4xx", some "图片已被删除或无权访问，建议从其他有效图床重新上传") ∧
    classify_error (some 503) none =
      ("http_5xx", some "图床服务器暂时不可用，建议稍后重试") :=
  ⟨(classify_error_status_ranges 204 none).1 (by decide) (by decide),
   (classify_error_status_ranges 404 none).2.1 (by decide) (by decide),
   (classify_error_status_ranges 503 none).2.2 (by decide)⟩

/-- C6: a present status code in [300,400) with no transport error
matches none of the explicit status rules and falls through to the
terminal fallback `("network", "未知错误")`. -/
theorem classify_error_3xx_fallback (code : Nat)
    (h1 : 300 ≤ code) (h2 : code < 400) :
    classify_error (some code) none = ("network", some "未知错误") := by
  rw [classify_error_some_eq]
  split_ifs with ha hb hc <;> first | rfl | omega

theorem classify_error_3xx_fallback_witness :
    classify_error (some 301) none = ("network", some "未知错误") :=
  classify_error_3xx_fallback 301 (by decide) (by decide)

/-- C10: a received response whose status code is below 200 yields
`is_valid = false`, `error_type = "network"` and the "unknown error"
(未知错误) suggestion, because the classifier's explicit rules cover
only [200,300), [400,500) and ≥ 500. -/
theorem check_image_link_1xx_network (link : String) (code elapsed : Nat)
    (hne : trim_is_empty link = false) (hlt : code < 200) :
    (check_image_link link (.ok code elapsed)).1.is_valid = false ∧
    (check_image_link link (.ok code elapsed)).1.error_type = "network" ∧
    (check_image_link link (.ok code elapsed)).1.suggestion = some "未知错误" := by
  have hcl : classify_error (some code) none = ("network", some "未知错误") :=
    classify_error_unmatched code (Or.inl hlt)
  simp only [check_image_link, hne, Bool.false_eq_true, if_false, hcl]
  refine ⟨?_, trivial, trivial⟩
  simp only [status_is_success]
  exact decide_eq_false (by omega)

theorem check_image_link_1xx_network_witness :
    (check_image_link "http://a.example/x.png" (.ok 101 7)).1.is_valid = false ∧
    (check_image_link "http://a.example/x.png" (.ok 101 7)).1.error_type = "network" ∧
    (check_image_link "http://a.example/x.png" (.ok 101 7)).1.suggestion = some "未知错误" :=
  check_image_link_1xx_network "http://a.example/x.png" 101 7 (by decide) (by decide)

/-- C1: for every link and every probe outcome, the result of
`check_image_link` satisfies `is_valid = true` exactly when
`error_type = "success"`. -/
theorem check_image_link_is_valid_iff_success (link : String)
    (outcome : ProbeOutcome) :
    (check_image_link link outcome).1.is_valid = true ↔
      (check_image_link link outcome).1.error_type = "success" := by
  by_cases h : trim_is_empty link
  · simp only [check_image_link, h, if_true]
    exact iff_of_false (by decide) (by decide)
  · rw [Bool.not_eq_true] at h
    cases outcome with
    | ok code elapsed =>
      simp only [check_image_link, h, Bool.false_eq_true, if_false,
        status_is_success]
      rw [classify_error_some_fst_success_iff, decide_eq_true_iff]
    | err e elapsed =>
      simp only [check_image_link, h, Bool.false_eq_true, if_false]
      exact iff_of_false (by decide)
        (classify_error_net_fst_ne_success (some e))

/-- C7: an empty or whitespace-only link makes `check_image_link`
short-circuit — no request is issued, `is_valid = false`,
`error_type = "network"`, a suggestion is present and `response_time`
is absent; and `response_time` is absent only in this never-started
case. -/
theorem check_image_link_blank_short_circuit (link : String)
    (outcome : ProbeOutcome) :
    (trim_is_empty link = true →
      check_image_link link outcome =
        ({ link := link, is_valid := false, status_code := none,
           error := some "链接为空", error_type := "network",
           suggestion := some "链接为空", response_time := none }, none)) ∧
    ((check_image_link link outcome).1.response_time = none ↔
      trim_is_empty link = true) := by
  by_cases h : trim_is_empty link
  · refine ⟨fun _ => ?_, ?_⟩
    · simp only [check_image_link, h, if_true]
    · simp only [check_image_link, h, if_true]
  · rw [Bool.not_eq_true] at h
    refine ⟨fun hx => absurd hx (by simp [h]), ?_⟩
    rw [h]
    cases outcome with
    | ok code elapsed =>
      simp only [check_image_link, h, Bool.false_eq_true, if_false]
      exact iff_of_false (by simp) (by simp)
    | err e elapsed =>
      simp only [check_image_link, h, Bool.false_eq_true, if_false]
      exact iff_of_false (by simp) (by simp)

theorem check_image_link_blank_short_circuit_witness :
    check_image_link " \t " (.ok 200 5) =
      ({ link := " \t ", is_valid := false, status_code := none,
         error := some "链接为空", error_type := "network",
         suggestion := some "链接为空", response_time := none }, none) ∧
    ((check_image_link " \t " (.ok 200 5)).1.response_time = none ↔
      trim_is_empty " \t " = true) :=
  ⟨(check_image_link_blank_short_circuit " \t " (.ok 200 5)).1 (by decide),
   (check_image_link_blank_short_circuit " \t " (.ok 200 5)).2⟩

/-- C8: the probe request shape is a pure function of the link string —
a link containing the fixed substring "image.baidu.com" gets a `GET`
with header `Range: bytes=0-0`, any other link gets a `HEAD`, both with
the 10-second timeout; and whenever `check_image_link` issues a request
at all, it issues exactly that request. -/
theorem probe_request_shape (link : String) (outcome : ProbeOutcome) :
    (str_contains link "image.baidu.com" = true →
      probe_request link =
        { method := "GET", url := link, range_header := some "bytes=0-0",
          timeout_secs := 10 }) ∧
    (str_contains link "image.baidu.com" = false →
      probe_request link =
        { method := "HEAD", url := link, range_header := none,
          timeout_secs := 10 }) ∧
    (trim_is_empty link = false →
      (check_image_link link outcome).2 = some (probe_request link)) := by
  refine ⟨fun hb => ?_, fun hb => ?_, fun hne => ?_⟩
  · simp only [probe_request, is_baidu_proxy_link, hb, if_true]
  · simp only [probe_request, is_baidu_proxy_link, hb, Bool.false_eq_true,
      if_false]
  · cases outcome with
    | ok code elapsed =>
      simp only [check_image_link, hne, Bool.false_eq_true, if_false]
    | err e elapsed =>
      simp only [check_image_link, hne, Bool.false_eq_true, if_false]

theorem probe_request_shape_witness :
    probe_request "https://image.baidu.com/search/x.jpg" =
      { method := "GET", url := "https://image.baidu.com/search/x.jpg",
        range_header := some "bytes=0-0", timeout_secs := 10 } ∧
    probe_request "https://example.com/a.png" =
      { method := "HEAD", url := "https://example.com/a.png",
        range_header := none, timeout_secs := 10 } ∧
    (check_image_link "https://example.com/a.png" (.ok 200 3)).2 =
      some (probe_request "https://example.com/a.png") :=
  ⟨(probe_request_shape "https://image.baidu.com/search/x.jpg"
      (.ok 200 3)).1 (by decide),
   (probe_request_shape "https://example.com/a.png" (.ok 200 3)).2.1
      (by decide),
   (probe_request_shape "https://example.com/a.png" (.ok 200 3)).2.2
      (by decide)⟩

/-! ### Helper lemmas about the cleanup scan -/

theorem cleanup_scan_deleted (now : Nat) (entries : List TempEntry) :
    (cleanup_scan now entries).deleted =
      (entries.filter (entry_removed now)).filterMap TempEntry.name := by
  induction entries with
  | nil => rfl
  | cons e rest ih =>
    rcases e with ⟨nm, mok, mod, rok⟩
    rcases nm with _ | n
    · simp [cleanup_scan, entry_action, entry_removed, List.filter_cons, ih]
    · rcases mod with _ | m
      · cases mok <;> cases hp : starts_with n TEMP_FILE_PREFIX <;>
          simp [cleanup_scan, entry_action, entry_removed, hp,
            List.filter_cons, ih]
      · cases mok <;> cases rok <;>
          cases hp : starts_with n TEMP_FILE_PREFIX <;>
          by_cases h1 : m ≤ now <;>
          by_cases h2 : now - m > TEMP_FILE_MAX_AGE_SECS <;>
          simp [cleanup_scan, entry_action, entry_removed, hp, h1, h2,
            List.filter_cons, ih]

theorem cleanup_scan_count (now : Nat) (entries : List TempEntry) :
    (cleanup_scan now entries).cleaned_count =
      (cleanup_scan now entries).deleted.length := by
  induction entries with
  | nil => rfl
  | cons e rest ih =>
    simp only [cleanup_scan]
    rcases entry_action now e with n | n | _ <;> simp [ih]

theorem entry_removed_false_of_remove_fail (now : Nat) (e : TempEntry)
    (h : e.remove_ok = false) : entry_removed now e = false := by
  simp [entry_removed, h]

/-! ### Claims about the cleanup pass -/

/-- C4: a cleanup pass deletes exactly those readable temp-directory
entries whose name starts with the fixed prefix, whose metadata and
modification time are readable, whose age in whole seconds strictly
exceeds the 3600-second retention threshold, and whose deletion
succeeds; every other entry is left untouched, and a deletion failure
on one entry does not affect the scan of the remaining entries (the
right-hand side is a per-entry filter). -/
theorem cleanup_deletes_exactly (entries : List TempEntry) (now : Nat) :
    (cleanup_old_temp_files (some entries) now).deleted =
      (entries.filter (entry_removed now)).filterMap TempEntry.name := by
  simp only [cleanup_old_temp_files]
  exact cleanup_scan_deleted now entries

/-- C5 counterexample: the claim says cleanup returns the count of
files it removed, but `cleanup_old_temp_files` has return type `()` —
two runs that remove 0 and 1 files have identical return values, so the
return value carries no count. -/
theorem cleanup_return_value_not_count :
    (cleanup_old_temp_files (some []) 0).ret =
      (cleanup_old_temp_files
        (some [{ name := some "weibo_reupload_1.jpg", metadata_ok := true,
                 modified := some 0, remove_ok := true }]) 10000).ret ∧
    (cleanup_old_temp_files (some []) 0).deleted.length = 0 ∧
    (cleanup_old_temp_files
        (some [{ name := some "weibo_reupload_1.jpg", metadata_ok := true,
                 modified := some 0, remove_ok := true }]) 10000).deleted.length
      = 1 := by
  refine ⟨rfl, rfl, ?_⟩
  decide

/-- C5 (amended): the cleanup operation returns no value — it returns
unit, only tracking and logging the count of removed files — and it
never fails the overall operation because of a single file's deletion
error: the internal counter equals the number of deletions performed,
and an entry whose deletion fails contributes nothing and leaves the
scan of all other entries unchanged. -/
theorem cleanup_count_tracked_no_abort (entries pre post : List TempEntry)
    (e : TempEntry) (now : Nat) :
    ((cleanup_old_temp_files (some entries) now).cleaned_count =
      (cleanup_old_temp_files (some entries) now).deleted.length) ∧
    ((cleanup_old_temp_files (some entries) now).ret = ()) ∧
    (e.remove_ok = false →
      (cleanup_old_temp_files (some (pre ++ e :: post)) now).deleted =
        (cleanup_old_temp_files (some (pre ++ post)) now).deleted) := by
  refine ⟨?_, rfl, fun hfail => ?_⟩
  · simp only [cleanup_old_temp_files]
    exact cleanup_scan_count now entries
  · simp only [cleanup_old_temp_files, cleanup_scan_deleted]
    simp [List.filter_append, List.filter_cons,
      entry_removed_false_of_remove_fail now e hfail]

theorem cleanup_count_tracked_no_abort_witness :
    ((cleanup_old_temp_files
        (some [{ name := some "weibo_reupload_2.jpg", metadata_ok := true,
                 modified := some 0, remove_ok := false }]) 10000).deleted =
      (cleanup_old_temp_files (some []) 10000).deleted) ∧
    ((cleanup_old_temp_files (some []) 10000).cleaned_count =
      (cleanup_old_temp_files (some []) 10000).deleted.length) :=
  ⟨(cleanup_count_tracked_no_abort [] [] []
      { name := some "weibo_reupload_2.jpg", metadata_ok := true,
        modified := some 0, remove_ok := false } 10000).2.2 rfl,
   (cleanup_count_tracked_no_abort [] [] []
      { name := none, metadata_ok := false, modified := none,
        remove_ok := false } 10000).1⟩

/-! ### Claims about the download path -/

/-- C3: the 50 MiB limit is enforced twice.  A declared
`Content-Length` above the limit fails before the body is read,
reporting the declared size and the limit; a body whose actual length
exceeds the limit (after passing or skipping the pre-flight check)
fails after reading; in neither case is a file written. -/
theorem download_size_limits (rd : Option (List TempEntry)) (now : Nat)
    (resp : DownloadResponse) (ts : Int) (dir : String)
    (wo : WriteOutcome) :
    (∀ cl, status_is_success resp.status = true →
      resp.content_length = some cl → cl > MAX_DOWNLOAD_SIZE →
      (download_image_from_url rd now (.ok resp) ts dir wo).body_read = false ∧
      (download_image_from_url rd now (.ok resp) ts dir wo).file_written = none ∧
      (download_image_from_url rd now (.ok resp) ts dir wo).result =
        .error (size_error_msg cl)) ∧
    (∀ bytes, status_is_success resp.status = true →
      (∀ cl, resp.content_length = some cl → cl ≤ MAX_DOWNLOAD_SIZE) →
      resp.body_result = .ok bytes → bytes.length > MAX_DOWNLOAD_SIZE →
      (download_image_from_url rd now (.ok resp) ts dir wo).body_read = true ∧
      (download_image_from_url rd now (.ok resp) ts dir wo).file_written = none ∧
      (download_image_from_url rd now (.ok resp) ts dir wo).result =
        .error (size_error_msg bytes.length)) := by
  constructor
  · intro cl hs hcl hgt
    simp only [download_image_from_url, hs, Bool.not_true,
      Bool.false_eq_true, if_false, hcl, if_pos hgt]
    refine ⟨?_, ?_, ?_⟩ <;> trivial
  · intro bytes hs hcl hbody hlen
    rcases hcle : resp.content_length with _ | cl
    · simp only [download_image_from_url, hs, Bool.not_true,
        Bool.false_eq_true, if_false, hcle, download_body_and_write, hbody,
        if_pos hlen]
      refine ⟨?_, ?_, ?_⟩ <;> trivial
    · have hle : ¬(cl > MAX_DOWNLOAD_SIZE) := by
        have := hcl cl hcle; omega
      simp only [download_image_from_url, hs, Bool.not_true,
        Bool.false_eq_true, if_false, hcle, if_neg hle,
        download_body_and_write, hbody, if_pos hlen]
      refine ⟨?_, ?_, ?_⟩ <;> trivial

theorem download_size_limits_witness :
    ((download_image_from_url none 0
        (.ok { status := 200, content_length := some 52428801,
               body_result := .ok [] }) 0 "/tmp" WriteOutcome.ok).body_read = false ∧
     (download_image_from_url none 0
        (.ok { status := 200, content_length := some 52428801,
               body_result := .ok [] }) 0 "/tmp" WriteOutcome.ok).file_written = none ∧
     (download_image_from_url none 0
        (.ok { status := 200, content_length := some 52428801,
               body_result := .ok [] }) 0 "/tmp" WriteOutcome.ok).result =
       .error (size_error_msg 52428801)) ∧
    ((download_image_from_url none 0
        (.ok { status := 200, content_length := none,
               body_result := .ok (List.replicate 52428801 0) }) 0 "/tmp"
        WriteOutcome.ok).body_read = true ∧
     (download_image_from_url none 0
        (.ok { status := 200, content_length := none,
               body_result := .ok (List.replicate 52428801 0) }) 0 "/tmp"
        WriteOutcome.ok).file_written = none ∧
     (download_image_from_url none 0
        (.ok { status := 200, content_length := none,
               body_result := .ok (List.replicate 52428801 0) }) 0 "/tmp"
        WriteOutcome.ok).result =
       .error (size_error_msg (List.replicate 52428801 0).length)) :=
  ⟨(download_size_limits none 0
      { status := 200, content_length := some 52428801,
        body_result := .ok [] } 0 "/tmp" WriteOutcome.ok).1 52428801 (by decide) rfl
      (by decide),
   (download_size_limits none 0
      { status := 200, content_length := none,
        body_result := .ok (List.replicate 52428801 0) } 0 "/tmp" WriteOutcome.ok).2
      (List.replicate 52428801 0) (by decide) (fun cl h => by cases h) rfl
      (by rw [List.length_replicate]; decide)⟩

/-- C9: the claim that a failed write leaves no file at the returned
final path contradicts the code: `std::fs::write` creates (truncates)
the file at the final path before writing its contents, so at this
failing input — a 3-byte download whose `write_all` fails after 0
bytes because the disk fills — `download_image_from_url` returns the
write error while an empty file remains at the returned final temp
path, and lines 292-295 do nothing to remove it. -/
theorem download_failed_write_leaves_file :
    (download_image_from_url none 0
        (.ok { status := 200, content_length := some 3,
               body_result := .ok [1, 2, 3] }) 17 "/tmp"
        (.writeFailed 0 "disk full")).result =
      .error ("写入文件失败: " ++ "disk full") ∧
    (download_image_from_url none 0
        (.ok { status := 200, content_length := some 3,
               body_result := .ok [1, 2, 3] }) 17 "/tmp"
        (.writeFailed 0 "disk full")).file_written =
      some ("/tmp" ++ "/" ++ TEMP_FILE_PREFIX ++ toString (17 : Int) ++
        ".jpg", []) := by
  exact ⟨rfl, rfl⟩

end LinkChecker
